import Mathlib

/-!
Verification of the `despydmdb` semaphore client (`dbsemaphore.py`) and the
global-temp-table guard (`desdmdbi.py`).

The database, the Oracle stored procedures (`SEM_WAIT`, `SEM_DEQUEUE`,
`SEM_SIGNAL`) and the connection provider are modelled as an oracle
(`World`): the catalog count for a semaphore name, the outcome of each
`SEM_WAIT` attempt (a granted slot number or a transient failure), and
fault-injection flags for the grant-recording and release steps.  The
client code of `DBSemaphore.__init__` and `DBSemaphore.__del__` is
translated statement by statement into `runInit` / `runDel`, which also
record a trace of the calls issued (session creations, SQL statements,
commits, stored-procedure calls, sleeps) so that ordering and
session-identity properties can be stated.
-/

namespace DespyDMdb

/-! ### `DesDmDbi.empty_gtt` (desdmdbi.py lines 337-347) -/

/-- Python `str.lower`, character by character (table names are ASCII). -/
def pyLower (s : String) : String := String.mk (s.data.map Char.toLower)

/-- Substring occurrence test on character lists. -/
def pyInList (needle : List Char) : List Char → Bool
  | [] => needle.isEmpty
  | c :: t => needle.isPrefixOf (c :: t) || pyInList needle t

/-- Python's substring test `needle in hay`. -/
def pyIn (needle hay : String) : Bool := pyInList needle.data hay.data

/-- Model of `DesDmDbi.empty_gtt`: raise `ValueError` unless `'gtt' in tablename.lower()`,
otherwise execute `delete from <tablename>`.  The returned `ok` value is the
SQL text of the delete statement that is executed. -/
def empty_gtt (tablename : String) : Except String String :=
  if pyIn "gtt" (pyLower tablename) = false then
    Except.error "Invalid table name for a global temp table (missing GTT)"
  else
    Except.ok ("delete from " ++ tablename)

/-! ### The semaphore client state and trace events (dbsemaphore.py) -/

/-- Calls the client issues against the store, in order.  Sessions are
numbered in creation order: session 0 is the connection opened at the top of
`__init__` (the acquisition session); each reconnect inside the retry loop
and the grant-recording connection `dbh2` get the next number. -/
inductive Event where
  | newSession (sess : Nat)
  | catalogQuery (sess : Nat) (name : String)
  | insertSeminfo (sess : Nat) (id : Nat)
  | commit (sess : Nat)
  | waitCall (sess : Nat) (name : String)
  | sleep (secs : Nat)
  | dequeueCall (sess : Nat) (name : String)
  | updateGrant (sess : Nat) (id : Nat) (numRequests : Nat) (slot : Nat)
  | signalCall (sess : Nat) (name : String) (slot : Option Nat)
  | updateRelease (sess : Nat) (id : Nat)
  | closeSession (sess : Nat)
deriving Repr, DecidableEq

/-- Whether an event is a `SEM_WAIT` attempt. -/
def Event.isWait : Event → Bool
  | .waitCall _ _ => true
  | _ => false

/-- Number of `SEM_WAIT` attempts in a trace. -/
def waitCount (evs : List Event) : Nat := (evs.filter Event.isWait).length

/-- The Python attribute `self.slot`: either the literal `None`, or a
`cx_Oracle` output variable whose inner value is set only once `SEM_WAIT`
succeeds.  `__del__`'s guard `self.slot != None` is false exactly on the
`none` constructor, whatever the variable's inner value. -/
inductive PySlot where
  | none
  | var (value : Option Nat)
deriving Repr, DecidableEq

/-- One row of the `SEMINFO` audit table, as committed.  Timestamps are
abstract tokens (0 = request, 1 = grant, 2 = release). -/
structure SemInfoRow where
  id : Nat
  name : String
  task_id : Nat
  request_time : Nat
  num_slots : Nat
  num_requests : Option Nat := Option.none
  grant_time : Option Nat := Option.none
  release_time : Option Nat := Option.none
  slot : Option Nat := Option.none
deriving Repr, DecidableEq

/-- The environment: catalog contents, the sequence value handed out for the
audit row id, the result of the k-th `SEM_WAIT` attempt (indexed by the value
of `trycnt`, i.e. 1-based; `some n` = granted slot `n`, `none` = the call
raises), and whether the grant-recording update on `dbh2` raises. -/
structure World where
  catalogCount : String → Nat
  seqVal : Nat
  waitOutcome : Nat → Option Nat
  grantRecordFails : Bool

/-- The mutable attributes of the `DBSemaphore` object. -/
structure SelfState where
  semname : String
  task_id : Nat
  slot : PySlot
  dbh : Nat
  id : Option Nat
deriving Repr, DecidableEq

/-- Exceptions `__init__` can propagate: the `ValueError` raised when the
catalog has no slots under the name, and an exception escaping the
(unprotected) grant-recording block. -/
inductive InitErr where
  | notFound
  | grantRecordError
deriving Repr, DecidableEq

/-- How the `while not done and trycnt <= MAXTRIES` loop ended: `granted`
carries the session holding the slot, the next unused session number, the
final `trycnt` and the slot number; `exhausted` likewise but with no slot. -/
inductive LoopEnd where
  | granted (sess nextSess trycnt slot : Nat)
  | exhausted (sess nextSess trycnt : Nat)
deriving Repr, DecidableEq

/-- Fixed maximum attempt count `MAXTRIES = 5` (dbsemaphore.py line 63). -/
def MAXTRIES : Nat := 5

/-- Fixed inter-attempt delay `TRYINTERVAL = 10` seconds (dbsemaphore.py line 64). -/
def TRYINTERVAL : Nat := 10

/-- The retry loop of `__init__` (lines 65-88).  `fuel` is the number of
loop-guard successes still possible, i.e. `MAXTRIES + 1 - trycnt`; the guard
`trycnt <= MAXTRIES` is false exactly when `fuel = 0`.  On a failed attempt
the handler sleeps `TRYINTERVAL`, opens a fresh session, calls `SEM_DEQUEUE`
on it and increments `trycnt`; the next `SEM_WAIT` runs on that session. -/
def semLoop (w : World) (name : String) (sess nextSess trycnt fuel : Nat) :
    List Event × LoopEnd :=
  match fuel with
  | 0 => ([], LoopEnd.exhausted sess nextSess trycnt)
  | fuel' + 1 =>
    match w.waitOutcome trycnt with
    | some n => ([Event.waitCall sess name], LoopEnd.granted sess nextSess trycnt n)
    | Option.none =>
      let r := semLoop w name nextSess (nextSess + 1) (trycnt + 1) fuel'
      (Event.waitCall sess name :: Event.sleep TRYINTERVAL ::
        Event.newSession nextSess :: Event.dequeueCall nextSess name :: r.1, r.2)

/-- Result of `__init__`: the trace, the object's final attributes (also
meaningful when an exception escapes, since Python keeps the partially
initialised object), the committed `SEMINFO` row, and the escaping
exception if any. -/
structure InitResult where
  events : List Event
  self_ : SelfState
  row : Option SemInfoRow
  err : Option InitErr
deriving Repr, DecidableEq

/-- Model of `DBSemaphore.__init__` (lines 25-98).  Session 0 is `self.dbh`; the
catalog count is queried; on zero the `ValueError` escapes with no audit
row.  Otherwise the `SEMINFO` row is inserted and committed on session 0,
`self.slot` becomes an unset placeholder variable, and the retry loop runs.
If a slot was granted, the grant info is written and committed on a freshly
opened connection `dbh2`; a failure there escapes (no try/except around
lines 90-98).  If the budget was exhausted, `__init__` simply returns: no
exception, no further write. -/
def runInit (w : World) (semname : String) (task_id : Nat) : InitResult :=
  if w.catalogCount semname = 0 then
    { events := [Event.newSession 0, Event.catalogQuery 0 semname],
      self_ := { semname := semname, task_id := task_id, slot := PySlot.none,
                 dbh := 0, id := Option.none },
      row := Option.none, err := some InitErr.notFound }
  else
    match (semLoop w semname 0 1 1 MAXTRIES).2 with
    | LoopEnd.granted hs ns tc n =>
      if w.grantRecordFails then
        { events := Event.newSession 0 :: Event.catalogQuery 0 semname ::
            Event.insertSeminfo 0 w.seqVal :: Event.commit 0 ::
            ((semLoop w semname 0 1 1 MAXTRIES).1 ++ [Event.newSession ns]),
          self_ := { semname := semname, task_id := task_id,
                     slot := PySlot.var (some n), dbh := hs, id := some w.seqVal },
          row := some { id := w.seqVal, name := semname, task_id := task_id,
                        request_time := 0, num_slots := w.catalogCount semname },
          err := some InitErr.grantRecordError }
      else
        { events := Event.newSession 0 :: Event.catalogQuery 0 semname ::
            Event.insertSeminfo 0 w.seqVal :: Event.commit 0 ::
            ((semLoop w semname 0 1 1 MAXTRIES).1 ++
              [Event.newSession ns, Event.updateGrant ns w.seqVal tc n,
               Event.commit ns]),
          self_ := { semname := semname, task_id := task_id,
                     slot := PySlot.var (some n), dbh := hs, id := some w.seqVal },
          row := some { id := w.seqVal, name := semname, task_id := task_id,
                        request_time := 0, num_slots := w.catalogCount semname,
                        num_requests := some tc, grant_time := some 1,
                        slot := some n },
          err := Option.none }
    | LoopEnd.exhausted hs _ _ =>
      { events := Event.newSession 0 :: Event.catalogQuery 0 semname ::
          Event.insertSeminfo 0 w.seqVal :: Event.commit 0 ::
          (semLoop w semname 0 1 1 MAXTRIES).1,
        self_ := { semname := semname, task_id := task_id,
                   slot := PySlot.var Option.none, dbh := hs, id := some w.seqVal },
        row := some { id := w.seqVal, name := semname, task_id := task_id,
                      request_time := 0, num_slots := w.catalogCount semname },
        err := Option.none }

/-- Fault-injection flags for the steps of `__del__`: whether the
`SEM_SIGNAL` call, the `release_time` update, the commit, or `self.dbh.close()`
raises. -/
structure DelFaults where
  signalFails : Bool := false
  updateFails : Bool := false
  commitFails : Bool := false
  closeFails : Bool := false
deriving Repr, DecidableEq

/-- The only exception that can escape `__del__`'s body: one raised by
`self.dbh.close()`, which sits outside the try/except (lines 117-118). -/
inductive DelErr where
  | closeError
deriving Repr, DecidableEq

/-- Result of `__del__`: trace, final object attributes, committed row,
escaping exception if any. -/
structure DelResult where
  events : List Event
  self_ : SelfState
  row : Option SemInfoRow
  err : Option DelErr
deriving Repr, DecidableEq

/-- Set `release_time` on the audit row, as the committed update does. -/
def setRelease (row : Option SemInfoRow) : Option SemInfoRow :=
  match row with
  | some r => some { r with release_time := some 2 }
  | Option.none => Option.none

/-- Model of `DBSemaphore.__del__` (lines 100-118).  If `self.slot != None` (i.e. the
attribute is not the literal `None`, even an unset placeholder variable
passes this test) the try block calls `SEM_SIGNAL`, updates `release_time`
and commits; the first failing step aborts the block and is swallowed by the
`except` clause.  Afterwards, unconditionally, `self.slot = None` and
`self.dbh.close()`; the close is outside the handler, so its failure
escapes. -/
def runDel (s : SelfState) (row : Option SemInfoRow) (f : DelFaults) : DelResult :=
  let tryPart : List Event × Option SemInfoRow :=
    match s.slot with
    | PySlot.none => ([], row)
    | PySlot.var v =>
      if f.signalFails then ([Event.signalCall s.dbh s.semname v], row)
      else if f.updateFails then ([Event.signalCall s.dbh s.semname v], row)
      else if f.commitFails then
        ([Event.signalCall s.dbh s.semname v,
          Event.updateRelease s.dbh (s.id.getD 0)], row)
      else
        ([Event.signalCall s.dbh s.semname v,
          Event.updateRelease s.dbh (s.id.getD 0), Event.commit s.dbh],
         setRelease row)
  { events := tryPart.1 ++ [Event.closeSession s.dbh],
    self_ := { s with slot := PySlot.none },
    row := tryPart.2,
    err := if f.closeFails then some DelErr.closeError else Option.none }

/-! ### The retry discipline of §4.2, as a trace shape -/

/-- Shape of the retry-loop trace required by the Retry Policy: each
transiently failed `SEM_WAIT` on session `s` is followed, in order, by a
sleep of `TRYINTERVAL` seconds, the opening of a fresh session `s' ≠ s`, a
`SEM_DEQUEUE` on that fresh session, and — if the budget allows another
attempt — the next `SEM_WAIT`, issued on that same fresh session.  A trace
may end with a successful `SEM_WAIT`, or be empty (budget exhausted). -/
inductive RetryShaped (name : String) : List Event → Prop where
  | nil : RetryShaped name []
  | success (s : Nat) : RetryShaped name [Event.waitCall s name]
  | failStep (s s' : Nat) (rest : List Event)
      (hfresh : s ≠ s')
      (hnext : rest = [] ∨ ∃ r, rest = Event.waitCall s' name :: r)
      (h : RetryShaped name rest) :
      RetryShaped name (Event.waitCall s name :: Event.sleep TRYINTERVAL ::
        Event.newSession s' :: Event.dequeueCall s' name :: rest)

/-! ### Concrete environments used as witnesses and counterexamples -/

/-- A registered semaphore (capacity 1) whose authority fails every
`SEM_WAIT` attempt. -/
def wAllFail : World :=
  { catalogCount := fun _ => 1, seqVal := 0,
    waitOutcome := fun _ => Option.none, grantRecordFails := false }

/-- A registered semaphore granted on the first attempt, but whose
grant-recording update on `dbh2` raises. -/
def wGrantFail : World :=
  { catalogCount := fun _ => 1, seqVal := 0,
    waitOutcome := fun _ => some 3, grantRecordFails := true }

/-- A registered semaphore with a transient failure on attempt 1 and a
grant of slot 4 on attempt 2. -/
def wTransient : World :=
  { catalogCount := fun _ => 1, seqVal := 0,
    waitOutcome := fun k => if k = 1 then Option.none else some 4,
    grantRecordFails := false }

/-- An empty catalog: no semaphore is registered under any name. -/
def wEmptyCatalog : World :=
  { catalogCount := fun _ => 0, seqVal := 0,
    waitOutcome := fun _ => Option.none, grantRecordFails := false }

/-- A handle that was granted slot 2 on session 1. -/
def grantedSelf : SelfState :=
  { semname := "sem", task_id := 4, slot := PySlot.var (some 2),
    dbh := 1, id := some 0 }

/-- The committed audit row of `grantedSelf`'s acquisition. -/
def grantedRow : Option SemInfoRow :=
  some { id := 0, name := "sem", task_id := 4, request_time := 0,
         num_slots := 1, num_requests := some 1, grant_time := some 1,
         slot := some 2 }

/-! ### Helper lemmas about the retry loop -/

theorem waitCount_nil : waitCount ([] : List Event) = 0 := rfl

theorem waitCount_cons (e : Event) (evs : List Event) :
    waitCount (e :: evs) = waitCount evs + (if e.isWait then 1 else 0) := by
  cases h : e.isWait <;> simp [waitCount, List.filter_cons, h]

theorem waitCount_append (a b : List Event) :
    waitCount (a ++ b) = waitCount a + waitCount b := by
  simp [waitCount, List.filter_append]

theorem semLoop_events_shape (w : World) (name : String) (fuel s ns t : Nat) :
    (semLoop w name s ns t fuel).1 = [] ∨
    ∃ r, (semLoop w name s ns t fuel).1 = Event.waitCall s name :: r := by
  match fuel with
  | 0 => exact Or.inl rfl
  | f + 1 =>
    cases h : w.waitOutcome t with
    | none =>
      exact Or.inr ⟨Event.sleep TRYINTERVAL :: Event.newSession ns ::
        Event.dequeueCall ns name :: (semLoop w name ns (ns + 1) (t + 1) f).1,
        by simp [semLoop, h]⟩
    | some n => exact Or.inr ⟨[], by simp [semLoop, h]⟩

theorem semLoop_retryShaped (w : World) (name : String) :
    ∀ (fuel s ns t : Nat), s < ns →
    RetryShaped name (semLoop w name s ns t fuel).1 := by
  intro fuel
  induction fuel with
  | zero =>
    intro s ns t _
    simpa [semLoop] using @RetryShaped.nil name
  | succ f ih =>
    intro s ns t hlt
    cases h : w.waitOutcome t with
    | some n =>
      simp only [semLoop, h]
      exact RetryShaped.success s
    | none =>
      have hr := ih ns (ns + 1) (t + 1) (Nat.lt_succ_self ns)
      have hd := semLoop_events_shape w name f ns (ns + 1) (t + 1)
      simp only [semLoop, h]
      exact RetryShaped.failStep s ns _ (Nat.ne_of_lt hlt) hd hr

theorem semLoop_waitCount_le (w : World) (name : String) :
    ∀ (fuel s ns t : Nat), waitCount (semLoop w name s ns t fuel).1 ≤ fuel := by
  intro fuel
  induction fuel with
  | zero => intro s ns t; simp [semLoop, waitCount]
  | succ f ih =>
    intro s ns t
    cases h : w.waitOutcome t with
    | some n => simp [semLoop, h, waitCount_cons, waitCount_nil, Event.isWait]
    | none =>
      have := ih ns (ns + 1) (t + 1)
      simp only [semLoop, h]
      simp [waitCount_cons, Event.isWait]
      omega

theorem semLoop_granted_count (w : World) (name : String) :
    ∀ (fuel s ns t hs nn tc n : Nat),
    (semLoop w name s ns t fuel).2 = LoopEnd.granted hs nn tc n →
    tc + 1 = t + waitCount (semLoop w name s ns t fuel).1 := by
  intro fuel
  induction fuel with
  | zero => intro s ns t hs nn tc n h; simp [semLoop] at h
  | succ f ih =>
    intro s ns t hs nn tc n h
    cases hw : w.waitOutcome t with
    | some m =>
      simp only [semLoop, hw] at h ⊢
      injection h with h1 h2 h3 h4
      subst h3
      simp [waitCount_cons, waitCount_nil, Event.isWait]
    | none =>
      simp only [semLoop, hw] at h ⊢
      have := ih ns (ns + 1) (t + 1) hs nn tc n h
      simp [waitCount_cons, Event.isWait]
      omega

theorem semLoop_granted_lt (w : World) (name : String) :
    ∀ (fuel s ns t hs nn tc n : Nat), s < ns →
    (semLoop w name s ns t fuel).2 = LoopEnd.granted hs nn tc n →
    hs < nn := by
  intro fuel
  induction fuel with
  | zero => intro s ns t hs nn tc n _ h; simp [semLoop] at h
  | succ f ih =>
    intro s ns t hs nn tc n hlt h
    cases hw : w.waitOutcome t with
    | some m =>
      simp only [semLoop, hw] at h
      injection h with h1 h2 h3 h4
      subst h1; subst h2
      exact hlt
    | none =>
      simp only [semLoop, hw] at h
      exact ih ns (ns + 1) (t + 1) hs nn tc n (Nat.lt_succ_self ns) h

theorem semLoop_allFail (w : World) (name : String)
    (hf : ∀ k, w.waitOutcome k = Option.none) :
    ∀ (fuel s ns t : Nat),
    ∃ hs nn tc, (semLoop w name s ns t fuel).2 = LoopEnd.exhausted hs nn tc := by
  intro fuel
  induction fuel with
  | zero => intro s ns t; exact ⟨s, ns, t, by simp [semLoop]⟩
  | succ f ih =>
    intro s ns t
    have := ih ns (ns + 1) (t + 1)
    simpa only [semLoop, hf t] using this

/-! ### Characterisations of `runInit` by branch -/

theorem runInit_notFound_eq (w : World) (name : String) (tid : Nat)
    (h : w.catalogCount name = 0) :
    runInit w name tid =
      { events := [Event.newSession 0, Event.catalogQuery 0 name],
        self_ := { semname := name, task_id := tid, slot := PySlot.none,
                   dbh := 0, id := Option.none },
        row := Option.none, err := some InitErr.notFound } := by
  simp [runInit, h]

theorem runInit_exhausted_eq (w : World) (name : String) (tid hs nn tc : Nat)
    (hc : w.catalogCount name ≠ 0)
    (hl : (semLoop w name 0 1 1 MAXTRIES).2 = LoopEnd.exhausted hs nn tc) :
    runInit w name tid =
      { events := Event.newSession 0 :: Event.catalogQuery 0 name ::
          Event.insertSeminfo 0 w.seqVal :: Event.commit 0 ::
          (semLoop w name 0 1 1 MAXTRIES).1,
        self_ := { semname := name, task_id := tid,
                   slot := PySlot.var Option.none, dbh := hs, id := some w.seqVal },
        row := some { id := w.seqVal, name := name, task_id := tid,
                      request_time := 0, num_slots := w.catalogCount name },
        err := Option.none } := by
  simp [runInit, hc, hl]

theorem runInit_granted_eq (w : World) (name : String) (tid hs nn tc n : Nat)
    (hc : w.catalogCount name ≠ 0)
    (hl : (semLoop w name 0 1 1 MAXTRIES).2 = LoopEnd.granted hs nn tc n)
    (hg : w.grantRecordFails = false) :
    runInit w name tid =
      { events := Event.newSession 0 :: Event.catalogQuery 0 name ::
          Event.insertSeminfo 0 w.seqVal :: Event.commit 0 ::
          ((semLoop w name 0 1 1 MAXTRIES).1 ++
            [Event.newSession nn, Event.updateGrant nn w.seqVal tc n,
             Event.commit nn]),
        self_ := { semname := name, task_id := tid,
                   slot := PySlot.var (some n), dbh := hs, id := some w.seqVal },
        row := some { id := w.seqVal, name := name, task_id := tid,
                      request_time := 0, num_slots := w.catalogCount name,
                      num_requests := some tc, grant_time := some 1,
                      slot := some n },
        err := Option.none } := by
  simp [runInit, hc, hl, hg]

theorem runInit_grantFail_eq (w : World) (name : String) (tid hs nn tc n : Nat)
    (hc : w.catalogCount name ≠ 0)
    (hl : (semLoop w name 0 1 1 MAXTRIES).2 = LoopEnd.granted hs nn tc n)
    (hg : w.grantRecordFails = true) :
    runInit w name tid =
      { events := Event.newSession 0 :: Event.catalogQuery 0 name ::
          Event.insertSeminfo 0 w.seqVal :: Event.commit 0 ::
          ((semLoop w name 0 1 1 MAXTRIES).1 ++ [Event.newSession nn]),
        self_ := { semname := name, task_id := tid,
                   slot := PySlot.var (some n), dbh := hs, id := some w.seqVal },
        row := some { id := w.seqVal, name := name, task_id := tid,
                      request_time := 0, num_slots := w.catalogCount name },
        err := some InitErr.grantRecordError } := by
  simp [runInit, hc, hl, hg]

theorem semLoop_events_cons (w : World) (name : String) (f s ns t : Nat) :
    ∃ r, (semLoop w name s ns t (f + 1)).1 = Event.waitCall s name :: r := by
  cases h : w.waitOutcome t with
  | none =>
    exact ⟨Event.sleep TRYINTERVAL :: Event.newSession ns ::
      Event.dequeueCall ns name :: (semLoop w name ns (ns + 1) (t + 1) f).1,
      by simp [semLoop, h]⟩
  | some n => exact ⟨[], by simp [semLoop, h]⟩

/-! ### Claims -/

/-- C1 (counterexample): run the acquisition against an authority where all
five `SEM_WAIT` attempts fail.  Contrary to the claim, `__init__` raises
nothing (`err = none` — there is no `AcquisitionFailedError`, and no
exception at all), and the persisted request row is exactly the initial
insert: its `num_requests` is absent (not 5), since the only statement that
ever writes `num_requests` is the grant update, which is guarded by
`if done:`. -/
theorem c1_counterexample :
    (runInit wAllFail "widget" 7).err = Option.none ∧
    (runInit wAllFail "widget" 7).row =
      some { id := 0, name := "widget", task_id := 7, request_time := 0,
             num_slots := 1 } := by
  constructor <;> rfl

/-- C1 (amended): if every `SEM_WAIT` attempt fails, `__init__` returns
normally with no exception; the request row persists exactly as inserted,
with no `num_requests` recorded and no `grant_time`; and the object's
`slot` attribute is an unset placeholder variable rather than a granted
slot. -/
theorem c1_exhaustion_returns_silently (w : World) (name : String) (tid : Nat)
    (hc : w.catalogCount name ≠ 0)
    (hf : ∀ k, w.waitOutcome k = Option.none) :
    (runInit w name tid).err = Option.none ∧
    (∃ r, (runInit w name tid).row = some r ∧
      r.num_requests = Option.none ∧ r.grant_time = Option.none) ∧
    (runInit w name tid).self_.slot = PySlot.var Option.none := by
  obtain ⟨hs, nn, tc, hl⟩ := semLoop_allFail w name hf MAXTRIES 0 1 1
  rw [runInit_exhausted_eq w name tid hs nn tc hc hl]
  exact ⟨rfl, ⟨_, rfl, rfl, rfl⟩, rfl⟩

/-- C1 witness: the amended claim evaluated on the all-failures authority. -/
theorem c1_witness :
    (runInit wAllFail "sem1" 3).err = Option.none ∧
    (∃ r, (runInit wAllFail "sem1" 3).row = some r ∧
      r.num_requests = Option.none ∧ r.grant_time = Option.none) ∧
    (runInit wAllFail "sem1" 3).self_.slot = PySlot.var Option.none :=
  c1_exhaustion_returns_silently wAllFail "sem1" 3 (by decide) (fun _ => rfl)

/-- C2 (code bug, evaluated at the failing input): a handle whose five
`SEM_WAIT` attempts all failed was never granted a slot, yet destroying it
is not a no-op: because `self.slot` holds the unset placeholder variable
(not the literal `None`), `__del__`'s guard passes and the code issues a
`SEM_SIGNAL` call on the authority and an audit `release_time` update plus
commit, exactly what the claim (and the intent of the `self.slot != None`
guard) rules out. -/
theorem c2_never_granted_still_signals :
    (runInit wAllFail "widget" 7).self_.slot = PySlot.var Option.none ∧
    (runDel (runInit wAllFail "widget" 7).self_
        (runInit wAllFail "widget" 7).row {}).events =
      [Event.signalCall 5 "widget" Option.none, Event.updateRelease 5 0,
       Event.commit 5, Event.closeSession 5] := by
  constructor <;> rfl

/-- C3 (counterexample): a failure of the grant-recording update on `dbh2`
is not swallowed — lines 90-98 of `dbsemaphore.py` have no try/except, so
the exception propagates out of `__init__` to the caller. -/
theorem c3_counterexample :
    (runInit wGrantFail "widget" 7).err = some InitErr.grantRecordError := by
  rfl

/-- C3 (amended): the failures that are logged and swallowed are those of
the `SEM_SIGNAL` call, the `release_time` update and the commit inside
`__del__`'s try/except (no exception escapes release as long as the final
`self.dbh.close()` — which sits outside the handler — does not itself
raise); a failure during the grant-recording step, by contrast, propagates
out of `__init__` to the caller. -/
theorem c3_release_swallows_but_grant_record_raises :
    (∀ (s : SelfState) (row : Option SemInfoRow) (f : DelFaults),
        f.closeFails = false → (runDel s row f).err = Option.none) ∧
    (∀ (w : World) (name : String) (tid n : Nat),
        w.catalogCount name ≠ 0 → w.waitOutcome 1 = some n →
        w.grantRecordFails = true →
        (runInit w name tid).err = some InitErr.grantRecordError) := by
  constructor
  · intro s row f hf
    simp [runDel, hf]
  · intro w name tid n hc hw hg
    have hl : (semLoop w name 0 1 1 MAXTRIES).2 = LoopEnd.granted 0 1 1 n := by
      rw [show MAXTRIES = 4 + 1 from rfl]
      simp [semLoop, hw]
    rw [runInit_grantFail_eq w name tid 0 1 1 n hc hl hg]

/-- C3 witness: a `SEM_SIGNAL` failure during release is swallowed, and a
grant-recording failure surfaces from acquisition. -/
theorem c3_witness :
    (runDel { semname := "widget", task_id := 7, slot := PySlot.var (some 3),
              dbh := 0, id := some 0 } Option.none
        { signalFails := true }).err = Option.none ∧
    (runInit wGrantFail "gadget" 8).err = some InitErr.grantRecordError :=
  ⟨c3_release_swallows_but_grant_record_raises.1 _ _ _ rfl,
   c3_release_swallows_but_grant_record_raises.2 wGrantFail "gadget" 8 3
     (by decide) rfl rfl⟩

/-- C4: whenever the retry loop ends with a granted slot and the recording
step does not fault, the holding session is `hs`, the grant information
(`grant_time`, final `num_requests`, `slot`) is written to the request row
and committed on the freshly opened session `nn`, and `hs ≠ nn`: the
holding session is never the one used for that update and commit. -/
theorem c4_grant_recorded_on_second_session (w : World) (name : String)
    (tid hs nn tc n : Nat)
    (hc : w.catalogCount name ≠ 0)
    (hl : (semLoop w name 0 1 1 MAXTRIES).2 = LoopEnd.granted hs nn tc n)
    (hg : w.grantRecordFails = false) :
    (runInit w name tid).self_.dbh = hs ∧ hs ≠ nn ∧
    (∃ pre, (runInit w name tid).events =
      pre ++ [Event.newSession nn, Event.updateGrant nn w.seqVal tc n,
              Event.commit nn]) ∧
    (∃ r, (runInit w name tid).row = some r ∧ r.grant_time = some 1 ∧
      r.num_requests = some tc ∧ r.slot = some n) := by
  have hlt := semLoop_granted_lt w name MAXTRIES 0 1 1 hs nn tc n
    (by decide) hl
  rw [runInit_granted_eq w name tid hs nn tc n hc hl hg]
  refine ⟨rfl, Nat.ne_of_lt hlt,
    ⟨Event.newSession 0 :: Event.catalogQuery 0 name ::
      Event.insertSeminfo 0 w.seqVal :: Event.commit 0 ::
      (semLoop w name 0 1 1 MAXTRIES).1, by simp⟩,
    ⟨_, rfl, rfl, rfl, rfl⟩⟩

/-- C4 witness: transient failure on attempt 1, grant of slot 4 on attempt
2; the holding session is 1 and the grant is recorded on session 2. -/
theorem c4_witness :
    (runInit wTransient "sem" 9).self_.dbh = 1 ∧ (1 : Nat) ≠ 2 ∧
    (∃ pre, (runInit wTransient "sem" 9).events =
      pre ++ [Event.newSession 2, Event.updateGrant 2 0 2 4,
              Event.commit 2]) ∧
    (∃ r, (runInit wTransient "sem" 9).row = some r ∧ r.grant_time = some 1 ∧
      r.num_requests = some 2 ∧ r.slot = some 4) :=
  c4_grant_recorded_on_second_session wTransient "sem" 9 1 2 2 4
    (by decide) rfl rfl

/-- C5: an unknown name or a name with zero configured slots makes
`__init__` raise the `ValueError` (`NotFoundError` in the spec's
vocabulary) immediately: no audit row is committed, and the only calls
issued are the connection open and the catalog count query — in particular
no `SEMINFO` insert. -/
theorem c5_zero_slots_fails_without_side_effects (w : World) (name : String)
    (tid : Nat) (h : w.catalogCount name = 0) :
    (runInit w name tid).err = some InitErr.notFound ∧
    (runInit w name tid).row = Option.none ∧
    (runInit w name tid).events =
      [Event.newSession 0, Event.catalogQuery 0 name] := by
  rw [runInit_notFound_eq w name tid h]
  exact ⟨rfl, rfl, rfl⟩

/-- C5 witness: the empty catalog evaluated concretely. -/
theorem c5_witness :
    (runInit wEmptyCatalog "nosuch" 1).err = some InitErr.notFound ∧
    (runInit wEmptyCatalog "nosuch" 1).row = Option.none ∧
    (runInit wEmptyCatalog "nosuch" 1).events =
      [Event.newSession 0, Event.catalogQuery 0 "nosuch"] :=
  c5_zero_slots_fails_without_side_effects wEmptyCatalog "nosuch" 1 rfl

/-- C6: whenever the committed request row carries a `grant_time`, its
`num_requests` equals the number of `SEM_WAIT` attempts issued during the
acquisition — `trycnt` starts at 1 and is incremented once per failed
attempt, so at the grant it equals the attempt count. -/
theorem c6_num_requests_counts_wait_attempts (w : World) (name : String)
    (tid : Nat) (r : SemInfoRow)
    (hrow : (runInit w name tid).row = some r)
    (hg : r.grant_time ≠ Option.none) :
    r.num_requests = some (waitCount (runInit w name tid).events) := by
  by_cases hc : w.catalogCount name = 0
  · rw [runInit_notFound_eq w name tid hc] at hrow
    simp at hrow
  · rcases hend : (semLoop w name 0 1 1 MAXTRIES).2 with ⟨hs, nn, tc, n⟩ | ⟨hs, nn, tc⟩
    · cases hgf : w.grantRecordFails with
      | false =>
        rw [runInit_granted_eq w name tid hs nn tc n hc hend hgf] at hrow
        rw [runInit_granted_eq w name tid hs nn tc n hc hend hgf]
        have hr := Option.some.inj hrow
        subst hr
        have hcount := semLoop_granted_count w name MAXTRIES 0 1 1 hs nn tc n hend
        simp [waitCount_cons, waitCount_append, waitCount_nil, Event.isWait]
        omega
      | true =>
        rw [runInit_grantFail_eq w name tid hs nn tc n hc hend hgf] at hrow
        have hr := Option.some.inj hrow
        rw [← hr] at hg
        simp at hg
    · rw [runInit_exhausted_eq w name tid hs nn tc hc hend] at hrow
      have hr := Option.some.inj hrow
      rw [← hr] at hg
      simp at hg

/-- C6 witness: transient failure on attempt 1, grant on attempt 2 — the
persisted `num_requests` is the attempt count, which is 2, and the grant
is recorded. -/
theorem c6_witness :
    (runInit wTransient "sem" 5).row =
      some { id := 0, name := "sem", task_id := 5, request_time := 0,
             num_slots := 1, num_requests := some 2, grant_time := some 1,
             slot := some 4 } ∧
    ({ id := 0, name := "sem", task_id := 5, request_time := 0,
       num_slots := 1, num_requests := some 2, grant_time := some 1,
       slot := some 4 } : SemInfoRow).num_requests =
      some (waitCount (runInit wTransient "sem" 5).events) ∧
    waitCount (runInit wTransient "sem" 5).events = 2 :=
  ⟨rfl,
   c6_num_requests_counts_wait_attempts wTransient "sem" 5 _ rfl (by decide),
   rfl⟩

/-- C7: the trace of the retry loop has exactly the shape of §4.2 — every
transiently failed `SEM_WAIT` is followed, in order, by a sleep of
`TRYINTERVAL` (10) seconds, the opening of a fresh session, a `SEM_DEQUEUE`
on that fresh session, and the next `SEM_WAIT` (if any) on that same fresh
session — and no acquisition ever issues more than `MAXTRIES` (5) `SEM_WAIT`
attempts in total. -/
theorem c7_retry_discipline (w : World) (name : String) (tid s ns t : Nat)
    (h : s < ns) :
    RetryShaped name (semLoop w name s ns t MAXTRIES).1 ∧
    waitCount (semLoop w name s ns t MAXTRIES).1 ≤ MAXTRIES ∧
    waitCount (runInit w name tid).events ≤ MAXTRIES := by
  refine ⟨semLoop_retryShaped w name MAXTRIES s ns t h,
    semLoop_waitCount_le w name MAXTRIES s ns t, ?_⟩
  have hle := semLoop_waitCount_le w name MAXTRIES 0 1 1
  by_cases hc : w.catalogCount name = 0
  · rw [runInit_notFound_eq w name tid hc]
    simp [waitCount_cons, waitCount_nil, Event.isWait, MAXTRIES]
  · rcases hend : (semLoop w name 0 1 1 MAXTRIES).2 with ⟨hs, nn, tc, n⟩ | ⟨hs, nn, tc⟩
    · cases hgf : w.grantRecordFails with
      | false =>
        rw [runInit_granted_eq w name tid hs nn tc n hc hend hgf]
        simp only [MAXTRIES] at hle ⊢
        simp [waitCount_cons, waitCount_append, waitCount_nil, Event.isWait]
        omega
      | true =>
        rw [runInit_grantFail_eq w name tid hs nn tc n hc hend hgf]
        simp only [MAXTRIES] at hle ⊢
        simp [waitCount_cons, waitCount_append, waitCount_nil, Event.isWait]
        omega
    · rw [runInit_exhausted_eq w name tid hs nn tc hc hend]
      simp only [MAXTRIES] at hle ⊢
      simp [waitCount_cons, waitCount_append, waitCount_nil, Event.isWait]
      omega

/-- C7 witness: the retry discipline at the loop's actual initial state
(acquisition session 0, next session 1, first attempt). -/
theorem c7_witness :
    RetryShaped "sem" (semLoop wTransient "sem" 0 1 1 MAXTRIES).1 ∧
    waitCount (semLoop wTransient "sem" 0 1 1 MAXTRIES).1 ≤ MAXTRIES ∧
    waitCount (runInit wTransient "sem" 5).events ≤ MAXTRIES :=
  c7_retry_discipline wTransient "sem" 5 0 1 1 (by decide)

/-- C8: whenever the catalog check passes, the trace of the acquisition
begins with the connection open, the catalog query, the `SEMINFO` insert
and its commit — both on the acquisition session 0 — and only then the
first blocking `SEM_WAIT`, which is also issued on session 0. -/
theorem c8_request_row_committed_before_wait (w : World) (name : String)
    (tid : Nat) (hc : w.catalogCount name ≠ 0) :
    ∃ rest, (runInit w name tid).events =
      Event.newSession 0 :: Event.catalogQuery 0 name ::
      Event.insertSeminfo 0 w.seqVal :: Event.commit 0 ::
      Event.waitCall 0 name :: rest := by
  obtain ⟨r, hr⟩ := semLoop_events_cons w name 4 0 1 1
  have hr5 : (semLoop w name 0 1 1 MAXTRIES).1 = Event.waitCall 0 name :: r := hr
  rcases hend : (semLoop w name 0 1 1 MAXTRIES).2 with ⟨hs, nn, tc, n⟩ | ⟨hs, nn, tc⟩
  · cases hgf : w.grantRecordFails with
    | false =>
      rw [runInit_granted_eq w name tid hs nn tc n hc hend hgf, hr5]
      exact ⟨r ++ [Event.newSession nn, Event.updateGrant nn w.seqVal tc n,
        Event.commit nn], by simp⟩
    | true =>
      rw [runInit_grantFail_eq w name tid hs nn tc n hc hend hgf, hr5]
      exact ⟨r ++ [Event.newSession nn], by simp⟩
  · rw [runInit_exhausted_eq w name tid hs nn tc hc hend, hr5]
    exact ⟨r, rfl⟩

/-- C8 witness: the trace prefix evaluated on the all-failures authority. -/
theorem c8_witness :
    ∃ rest, (runInit wAllFail "sem8" 2).events =
      Event.newSession 0 :: Event.catalogQuery 0 "sem8" ::
      Event.insertSeminfo 0 0 :: Event.commit 0 ::
      Event.waitCall 0 "sem8" :: rest :=
  c8_request_row_committed_before_wait wAllFail "sem8" 2 (by decide)

/-- C9: a second `__del__` on the same handle raises nothing (as long as
the second close itself does not) and has no effect on the authority or the
audit row: after the first release `self.slot` is the literal `None`, so
the second release's whole trace is the lone session close — in particular
no `SEM_SIGNAL` call and no `release_time` update. -/
theorem c9_release_is_idempotent (s : SelfState) (row : Option SemInfoRow)
    (f1 f2 : DelFaults) (h : f2.closeFails = false) :
    (runDel (runDel s row f1).self_ (runDel s row f1).row f2).err =
      Option.none ∧
    (runDel (runDel s row f1).self_ (runDel s row f1).row f2).events =
      [Event.closeSession s.dbh] ∧
    (runDel (runDel s row f1).self_ (runDel s row f1).row f2).row =
      (runDel s row f1).row := by
  have hs : (runDel s row f1).self_ = { s with slot := PySlot.none } := rfl
  rw [hs]
  refine ⟨?_, ?_, ?_⟩
  · simp [runDel, h]
  · simp [runDel]
  · simp [runDel]

/-- C9 witness: a granted handle released twice — the second release is a
bare close with no error. -/
theorem c9_witness :
    (runDel (runDel grantedSelf grantedRow {}).self_
      (runDel grantedSelf grantedRow {}).row {}).err = Option.none ∧
    (runDel (runDel grantedSelf grantedRow {}).self_
      (runDel grantedSelf grantedRow {}).row {}).events =
      [Event.closeSession grantedSelf.dbh] ∧
    (runDel (runDel grantedSelf grantedRow {}).self_
      (runDel grantedSelf grantedRow {}).row {}).row =
      (runDel grantedSelf grantedRow {}).row :=
  c9_release_is_idempotent grantedSelf grantedRow {} {} rfl

/-- C10: `empty_gtt` raises `ValueError` for every table name whose
lowercase form does not contain the substring `gtt`, executing no delete
statement; conversely every delete it does execute is
`delete from <tablename>` for a name whose lowercase form contains
`gtt`. -/
theorem c10_empty_gtt_guard :
    (∀ t : String, pyIn "gtt" (pyLower t) = false →
      empty_gtt t =
        Except.error "Invalid table name for a global temp table (missing GTT)") ∧
    (∀ t s : String, empty_gtt t = Except.ok s →
      pyIn "gtt" (pyLower t) = true ∧ s = "delete from " ++ t) := by
  constructor
  · intro t h
    simp [empty_gtt, h]
  · intro t s h
    cases hb : pyIn "gtt" (pyLower t) with
    | false => simp [empty_gtt, hb] at h
    | true =>
      refine ⟨rfl, ?_⟩
      simp [empty_gtt, hb] at h
      exact h.symm

/-- C10 witness: a name without `gtt` is rejected; a GTT name (uppercase in
the source, lowercased by the guard) is deleted from. -/
theorem c10_witness :
    pyIn "gtt" (pyLower "exposure") = false ∧
    empty_gtt "exposure" =
      Except.error "Invalid table name for a global temp table (missing GTT)" ∧
    empty_gtt "GTT_FILENAME" = Except.ok "delete from GTT_FILENAME" ∧
    pyIn "gtt" (pyLower "GTT_FILENAME") = true :=
  ⟨by decide, c10_empty_gtt_guard.1 "exposure" (by decide), by rfl,
   (c10_empty_gtt_guard.2 "GTT_FILENAME" "delete from GTT_FILENAME"
     (by rfl)).1⟩

end DespyDMdb
